import Mathlib

/-!
Verification of the Voltix battery display utility (src/main.py) against its
natural-language specification.

The development shallowly embeds the pure core of the program:

* `format_time` (main.py lines 16-21), including the exact rendering of the
  Python `str(timedelta(seconds=secs))` value for non-negative integer seconds
  (the trailing `.split(".")[0]` is the identity there, since integer seconds
  produce no microsecond component);
* `color_for_percent` (lines 66-72);
* the gauge construction inside `render_battery` (lines 92-114), as the pure
  function `render_battery_lines` returning the list of gauge lines (each a
  list of characters) just before the info text is appended;
* `get_psutil_battery` (lines 48-62), parameterised by the outcome of the
  external psutil facility (import failure, no battery, or a reported
  reading whose percent is an exact rational, faithfully standing for the
  reported binary float);
* the acquisition, override-merge and defaulting logic of `show`
  (lines 131-152), parameterised by the readings the two sources produce.

Python integer arithmetic maps to `Int`/`Nat`; the expression
`int((percent * width) / 100)` maps to truncating division `Int.tdiv`, which
agrees with the Python float computation for every percent of magnitude far
beyond any realistic input (exactness of the float quotient to within the
1/25 gap around integers). Python dictionaries returned by the sources map to
a record of optional fields, with key-present-but-None distinguished from
key-absent for `secs_left`. Python string lowering and matching is modelled
over the character list of the string (ASCII case mapping, as used by every
status word the program handles).
-/

namespace Voltix

/-- Two-digit zero padding, as produced by the `%02d` format inside the
Python `timedelta.__str__` rendering. -/
def pad2 (n : Nat) : String := if n < 10 then "0" ++ toString n else toString n

/-- Rendering of `str(timedelta(seconds=secs))` for a non-negative integer
number of seconds: `H:MM:SS` below one day, prefixed by a day count
(\x22D day, \x22 or \x22D days, \x22) from 86400 seconds on. This mirrors the
divmod decomposition of `timedelta.__str__` in CPython. -/
def pyTimedeltaStr (secs : Nat) : String :=
  if secs / 86400 = 0 then
    toString (secs % 86400 / 3600) ++ ":" ++ pad2 (secs % 86400 % 3600 / 60) ++ ":"
      ++ pad2 (secs % 86400 % 60)
  else
    toString (secs / 86400) ++ (if secs / 86400 = 1 then " day, " else " days, ")
      ++ toString (secs % 86400 / 3600) ++ ":" ++ pad2 (secs % 86400 % 3600 / 60) ++ ":"
      ++ pad2 (secs % 86400 % 60)

/-- Python `s.lower()` over the character list (ASCII case mapping). -/
def py_lower (s : String) : String := ⟨s.data.map Char.toLower⟩

/-- Python `s.startswith(p)` over the character lists. -/
def py_startswith (s p : String) : Bool := p.data.isPrefixOf s.data

/-- The test `status and status.lower().startswith("charg")` from
`format_time` (main.py line 18): a `None` or empty status is falsy. -/
def status_says_charging : Option String → Bool
  | none => false
  | some s => !(s == "") && py_startswith (py_lower s) "charg"

/-- Embedding of `format_time` (main.py lines 16-21). `secs = none` stands
for Python `None`. -/
def format_time (secs : Option Int) (status : Option String) : String :=
  match secs with
  | none => if status_says_charging status then "Charging..." else "Unknown"
  | some k =>
    if k < 0 then (if status_says_charging status then "Charging..." else "Unknown")
    else pyTimedeltaStr k.toNat

/-- Modelled from the spec (section 4.1): the claimed output format for
non-negative seconds, `H:MM:SS` with hours unbounded and two-digit
minutes/seconds. Used only to compare the code with the spec wording. -/
def format_time_spec_hmmss (secs : Nat) : String :=
  toString (secs / 3600) ++ ":" ++ pad2 (secs % 3600 / 60) ++ ":" ++ pad2 (secs % 60)

/-- Modelled from the spec (section 4.1): the claimed fallback for absent or
negative seconds, depending only on whether the status text
case-insensitively starts with \x22charg\x22. -/
def charging_fallback_spec : Option String → String
  | none => "Unknown"
  | some s => if py_startswith (py_lower s) "charg" then "Charging..." else "Unknown"

/-- A battery reading as the Python dictionary flowing through `show`:
each field is absent when the corresponding key is missing. For `secs_left`
the inner option is the stored Python value, which may itself be `None`. -/
structure BatteryDict where
  percent : Option Int := none
  status : Option String := none
  secs_left : Option (Option Int) := none
deriving DecidableEq

/-- The empty dictionary `{}` used as the last member of the fallback chain
(main.py line 138). -/
def BatteryDict.empty : BatteryDict := {}

/-- A reading reported by the psutil facility: `percent` is the exact
rational value of the reported float, `power_plugged` the plugged-in flag,
and `secsleft` the reported value (`none` standing for Python `None`). -/
structure PsutilReading where
  percent : ℚ
  power_plugged : Bool
  secsleft : Option Int
deriving DecidableEq

/-- The sentinel psutil documents for unlimited remaining time (reported
while on AC power). The code under test never mentions it; it is needed to
state the spec sentence about the \x22unknown/unlimited\x22 sentinel. -/
def POWER_TIME_UNLIMITED : Int := -2

/-- The sentinel psutil documents for unknown remaining time. -/
def POWER_TIME_UNKNOWN : Int := -1

/-- Python `round` on the exact value of a float: round to nearest with ties
to even (banker's rounding), as `int(round(b.percent))` performs. -/
def pyRound (q : ℚ) : Int :=
  if q - ⌊q⌋ < 1 / 2 then ⌊q⌋
  else if (1 : ℚ) / 2 < q - ⌊q⌋ then ⌊q⌋ + 1
  else if ⌊q⌋ % 2 = 0 then ⌊q⌋ else ⌊q⌋ + 1

/-- Embedding of `get_psutil_battery` (main.py lines 48-62), parameterised by
the environment: `none` when the psutil import fails, `some none` when
`psutil.sensors_battery()` returns no battery, and `some (some b)` when it
reports the reading `b`. The returned dictionary stores `None` for
`secs_left` exactly when the facility reports `-1` or `None`. -/
def get_psutil_battery (env : Option (Option PsutilReading)) : Option BatteryDict :=
  match env with
  | none => none
  | some none => none
  | some (some b) =>
    some { percent := some (pyRound b.percent),
           status := some (if b.power_plugged then "Charging" else "Discharging"),
           secs_left := some (if b.secsleft = some (-1) ∨ b.secsleft = none then none
                              else b.secsleft) }

/-- Embedding of `color_for_percent` (main.py lines 66-72). -/
def color_for_percent (percent : Int) : String :=
  if percent < 20 then "red"
  else if percent < 60 then "yellow"
  else "green"

/-- The filled-column computation `int((percent * width) / 100)` of
`render_battery` (main.py line 95) with `width = 28`: the Python `int()` of
the float quotient truncates toward zero, which is `Int.tdiv`. -/
def fill_cols (percent : Int) : Int := Int.tdiv (percent * 28) 100

/-- Python `str.center(w)` with space fill: total padding split in half,
with the extra cell going to the left exactly when both the padding and the
requested width are odd (the CPython tie-breaking rule). -/
def pyCenter (s : List Char) (w : Nat) : List Char :=
  if w ≤ s.length then s
  else
    List.replicate ((w - s.length) / 2 + (if (w - s.length) % 2 = 1 ∧ w % 2 = 1 then 1 else 0)) ' '
      ++ s
      ++ List.replicate ((w - s.length) - ((w - s.length) / 2 + (if (w - s.length) % 2 = 1 ∧ w % 2 = 1 then 1 else 0))) ' '

/-- In-place overwrite of row characters starting at a given index, as the
loop `for i, ch in enumerate(perc_text): row[start + i] = ch` performs
(main.py lines 112-113); every write of the program stays in range. -/
def writeAt : List Char → Nat → List Char → List Char
  | row, _, [] => row
  | row, i, c :: cs => writeAt (row.set i c) (i + 1) cs

/-- The gauge block built by `render_battery` (main.py lines 92-114), as the
list of its lines right after the percent-text overlay and before the info
text is appended: the centered cap ornament, the top border, the nine
interior rows (the middle one carrying the overlaid percent text), and the
bottom border. Negative repeat counts produce empty strings in Python, hence
the `Int.toNat` truncations. -/
def render_battery_lines (percent : Int) : List (List Char) :=
  (pyCenter (List.replicate ((28 - (28 - 28 / 3)) / 2) ' ' ++ List.replicate (28 - 28 / 3) '_') 30
      :: ('╭' :: List.replicate 28 '─' ++ ['╮'])
      :: (List.replicate 9
            ('│' :: (List.replicate (fill_cols percent).toNat '█'
                      ++ List.replicate (28 - fill_cols percent).toNat ' ') ++ ['│'])
          ++ ['╰' :: List.replicate 28 '─' ++ ['╯']])).set (2 + 9 / 2)
    (writeAt
      ((pyCenter (List.replicate ((28 - (28 - 28 / 3)) / 2) ' ' ++ List.replicate (28 - 28 / 3) '_') 30
          :: ('╭' :: List.replicate 28 '─' ++ ['╮'])
          :: (List.replicate 9
                ('│' :: (List.replicate (fill_cols percent).toNat '█'
                          ++ List.replicate (28 - fill_cols percent).toNat ' ') ++ ['│'])
              ++ ['╰' :: List.replicate 28 '─' ++ ['╯']])).getD (2 + 9 / 2) [])
      (1 + (28 - (toString percent ++ "%").length) / 2)
      (toString percent ++ "%").toList)

/-- Source composition `get_psutil_battery() or get_sys_battery() or {}`
(main.py line 138), parameterised by the two source outcomes. Every
dictionary either source can return is non-empty, hence truthy, so the
Python `or` chain is exactly this option fallback. -/
def acquire_base (ps sys : Option BatteryDict) : BatteryDict :=
  (ps.orElse fun _ => sys).getD BatteryDict.empty

/-- The same composition instrumented with whether the filesystem source was
consulted: the left-to-right short-circuit of the Python `or` evaluates
`get_sys_battery()` only when the psutil source produced no reading. -/
def acquire_traced (ps sys : Option BatteryDict) : BatteryDict × Bool :=
  match ps with
  | some r => (r, false)
  | none =>
    match sys with
    | some r => (r, true)
    | none => (BatteryDict.empty, true)

/-- Step `if level is not None: info["percent"] = level` of `show`
(main.py lines 141-142). -/
def set_percent (info : BatteryDict) : Option Int → BatteryDict
  | some l => { info with percent := some l }
  | none => info

/-- Step `if status is not None: info["status"] = status` of `show`
(main.py lines 143-144). -/
def set_status (info : BatteryDict) : Option String → BatteryDict
  | some s => { info with status := some s }
  | none => info

/-- Step `if secsleft is not None: info["secs_left"] = secsleft` of `show`
(main.py lines 145-146); the stored value is the integer itself. -/
def set_secs (info : BatteryDict) : Option Int → BatteryDict
  | some t => { info with secs_left := some (some t) }
  | none => info

/-- The override merge of `show` (main.py lines 140-146): the three
conditional assignments applied in program order. Each supplied simulated
value is written into the dictionary, each omitted one leaves it
untouched. -/
def merge_overrides (info : BatteryDict) (level : Option Int) (status : Option String)
    (secsleft : Option Int) : BatteryDict :=
  set_secs (set_status (set_percent info level) status) secsleft

/-- The full data path of `show` (main.py lines 131-152) up to the renderer
call: acquire a base reading, merge the overrides, then extract the three
renderer arguments with `dict.get` defaults 50, \x22Unknown\x22 and `None`. -/
def show_pipeline (ps sys : Option BatteryDict) (level : Option Int) (status : Option String)
    (secsleft : Option Int) : Int × String × Option Int :=
  ((merge_overrides (acquire_base ps sys) level status secsleft).percent.getD 50,
   (merge_overrides (acquire_base ps sys) level status secsleft).status.getD "Unknown",
   (merge_overrides (acquire_base ps sys) level status secsleft).secs_left.getD none)

/-! Helper lemmas shared by the claim theorems. -/

/-- For non-negative seconds `format_time` ignores the status and renders the
timedelta string. -/
theorem format_time_of_nonneg (k : Int) (hk : 0 ≤ k) (st : Option String) :
    format_time (some k) st = pyTimedeltaStr k.toNat := by
  simp only [format_time, if_neg (by omega : ¬ k < 0)]

/-- The charging/unknown branch of `format_time` agrees with the spec
wording: the Python truthiness test on the status adds nothing, because an
empty string cannot start with \x22charg\x22. -/
theorem charging_branch_eq_spec (st : Option String) :
    (if status_says_charging st then "Charging..." else "Unknown")
      = charging_fallback_spec st := by
  cases st with
  | none => rfl
  | some s =>
    by_cases hs : s = ""
    · subst hs; decide
    · simp only [status_says_charging, charging_fallback_spec,
        beq_eq_false_iff_ne.mpr hs, Bool.not_false, Bool.true_and]

/-- On a natural-number percent the filled-column count is plain natural
division. -/
theorem fill_cols_natCast (n : Nat) :
    fill_cols (n : Int) = ((n * 28 / 100 : Nat) : Int) := by
  simp only [fill_cols]
  have h : ((n : Int) * 28) = ((n * 28 : Nat) : Int) := by push_cast; ring
  rw [h, show (100 : Int) = ((100 : Nat) : Int) from rfl, ← Int.ofNat_tdiv]

/-- On a negated natural-number percent the filled-column count is the
negated natural division: truncation toward zero. -/
theorem fill_cols_neg_natCast (n : Nat) :
    fill_cols (-(n : Int)) = -((n * 28 / 100 : Nat) : Int) := by
  have h := fill_cols_natCast n
  simp only [fill_cols] at h ⊢
  rw [neg_mul, Int.neg_tdiv, h]

/-- Banker's rounding lands within one half of its argument, so it is a
round to a nearest integer. -/
theorem pyRound_nearest (q : ℚ) :
    q - 1 / 2 ≤ (pyRound q : ℚ) ∧ (pyRound q : ℚ) ≤ q + 1 / 2 := by
  have h0 : (⌊q⌋ : ℚ) ≤ q := Int.floor_le q
  have h1 : q < ⌊q⌋ + 1 := Int.lt_floor_add_one q
  unfold pyRound
  split_ifs with ha hb hc <;> constructor <;> push_cast <;> linarith

/-! Claim theorems. -/

/-- Claim C1 fails as stated: at percent = -1 the code computes
`int((-1 * 28) / 100) = 0` while `floor(-28 / 100) = -1`, and the resulting
fill count 0 lies inside [0, 28] even though percent < 0. -/
theorem C1_counterexample :
    fill_cols (-1) = 0 ∧ Int.fdiv ((-1) * 28) 100 = -1 ∧ (0 : Int) ≠ -1
      ∧ (0 ≤ fill_cols (-1) ∧ fill_cols (-1) ≤ 28) := by
  refine ⟨by decide, by decide, by decide, by decide⟩

/-- Claim C1, amended: `render_battery` computes the filled-column count as
the truncation toward zero of percent × 28 / 100 (which equals the floor for
percent ≥ 0, e.g. 4 columns at percent = 15), without clamping; the count
falls outside [0, 28] exactly when percent ≤ -4 or percent ≥ 104, while
percents -3..-1 and 101..103 still give in-range counts. -/
theorem C1_amended (p : Int) :
    (0 ≤ p → fill_cols p = Int.fdiv (p * 28) 100)
      ∧ ((fill_cols p < 0 ∨ 28 < fill_cols p) ↔ (p ≤ -4 ∨ 104 ≤ p))
      ∧ fill_cols 15 = 4 := by
  refine ⟨fun hp => ?_, ?_, by decide⟩
  · simp only [fill_cols]
    rw [Int.fdiv_eq_tdiv (by omega) (by omega)]
  · obtain ⟨n, rfl | rfl⟩ := Int.eq_nat_or_neg p
    · rw [fill_cols_natCast]; omega
    · rw [fill_cols_neg_natCast]; omega

/-- Claim C1 witness: the floor characterisation instantiated at
percent = 15. -/
theorem C1_witness : fill_cols 15 = Int.fdiv (15 * 28) 100 :=
  (C1_amended 15).1 (by decide)

/-- Claim C2 fails as stated: at 86400 seconds the Python timedelta string
is \x221 day, 0:00:00\x22, not the unbounded-hours form \x2224:00:00\x22. -/
theorem C2_counterexample :
    format_time (some 86400) none = "1 day, 0:00:00"
      ∧ format_time_spec_hmmss 86400 = "24:00:00"
      ∧ ("1 day, 0:00:00" : String) ≠ "24:00:00" := by
  refine ⟨by decide, by decide, by decide⟩

/-- Claim C2, amended: for every non-negative secs below 86400 and every
status, `format_time` renders secs as `H:MM:SS` with two-digit zero-padded
minutes and seconds (from 86400 seconds on, a day count prefix appears
instead); in particular `format_time 3661 _` is \x221:01:01\x22. -/
theorem C2_amended (s : Nat) (hs : s < 86400) (st : Option String) :
    format_time (some (s : Int)) st = format_time_spec_hmmss s
      ∧ format_time (some 3661) st = "1:01:01" := by
  constructor
  · rw [format_time_of_nonneg _ (by omega) st, Int.toNat_natCast]
    simp [pyTimedeltaStr, format_time_spec_hmmss, Nat.div_eq_of_lt hs, Nat.mod_eq_of_lt hs]
  · rw [format_time_of_nonneg _ (by omega) st]
    decide

/-- Claim C2 witness: the amended statement instantiated at 3661 seconds. -/
theorem C2_witness :
    (3661 : Nat) < 86400
      ∧ format_time (some ((3661 : Nat) : Int)) (some "whatever") = format_time_spec_hmmss 3661 :=
  ⟨by decide, (C2_amended 3661 (by decide) (some "whatever")).1⟩

/-- Claim C3, confirmed: the composition tries the psutil source first, then
the filesystem source, then the empty reading, first present reading wins;
the filesystem source is consulted exactly when the psutil source produced
no reading, so a psutil reading short-circuits the chain. -/
theorem C3_source_fallback (ps sys : Option BatteryDict) (r : BatteryDict) :
    acquire_traced (some r) sys = (r, false)
      ∧ acquire_traced none (some r) = (r, true)
      ∧ acquire_traced none none = (BatteryDict.empty, true)
      ∧ (acquire_traced ps sys).1 = acquire_base ps sys
      ∧ (acquire_traced ps sys).2 = ps.isNone := by
  refine ⟨rfl, rfl, rfl, ?_, ?_⟩ <;> cases ps <;> cases sys <;> rfl

/-- Claim C4, confirmed: each supplied override replaces its field
unconditionally, each omitted override leaves the field unchanged, and
supplying only level 75 over a base reading with percent 40 yields renderer
arguments (75, base status, base seconds). -/
theorem C4_override_merge (info : BatteryDict) (lv t : Int) (sv : String)
    (l0 : Option Int) (s0 : Option String) (t0 : Option Int) :
    (merge_overrides info (some lv) s0 t0).percent = some lv
      ∧ (merge_overrides info none s0 t0).percent = info.percent
      ∧ (merge_overrides info l0 (some sv) t0).status = some sv
      ∧ (merge_overrides info l0 none t0).status = info.status
      ∧ (merge_overrides info l0 s0 (some t)).secs_left = some (some t)
      ∧ (merge_overrides info l0 s0 none).secs_left = info.secs_left
      ∧ show_pipeline (some ⟨some 40, some "Discharging", some (some 600)⟩) none
            (some 75) none none
          = (75, "Discharging", some 600) := by
  refine ⟨?_, ?_, ?_, ?_, ?_, ?_, rfl⟩
  · cases s0 <;> cases t0 <;> rfl
  · cases s0 <;> cases t0 <;> rfl
  · cases l0 <;> cases t0 <;> rfl
  · cases l0 <;> cases t0 <;> rfl
  · cases l0 <;> cases s0 <;> rfl
  · cases l0 <;> cases s0 <;> rfl

/-- Claim C5, confirmed: with absent or negative seconds, `format_time`
returns \x22Charging...\x22 exactly when the status is present and its
lower-cased form starts with \x22charg\x22, and \x22Unknown\x22 otherwise;
in particular at (none, none), (none, any casing of \x22Charging\x22) and
(-5, \x22Discharging\x22). -/
theorem C5_absent_or_negative (st : Option String) (k : Int) (hk : k < 0) :
    format_time none st = charging_fallback_spec st
      ∧ format_time (some k) st = charging_fallback_spec st
      ∧ format_time none none = "Unknown"
      ∧ format_time none (some "Charging") = "Charging..."
      ∧ format_time none (some "cHARGing") = "Charging..."
      ∧ format_time (some (-5)) (some "Discharging") = "Unknown" := by
  refine ⟨?_, ?_, by decide, by decide, by decide, by decide⟩
  · exact charging_branch_eq_spec st
  · simp only [format_time, if_pos hk]
    exact charging_branch_eq_spec st

/-- Claim C5 witness: instantiated at seconds -5 with status
\x22Charging\x22. -/
theorem C5_witness :
    (-5 : Int) < 0
      ∧ format_time (some (-5)) (some "Charging") = charging_fallback_spec (some "Charging") :=
  ⟨by decide, (C5_absent_or_negative (some "Charging") (-5) (by decide)).2.1⟩

/-- Claim C6 fails as stated: in the rendered gauge for percent 50 the
center interior row carries only 12 fill characters, because the overlaid
text \x2250%\x22 overwrites two of the 14. -/
theorem C6_counterexample :
    ((render_battery_lines 50).getD 6 []).count '█' = 12 ∧ (12 : Nat) ≠ 14 := by
  refine ⟨by decide, by decide⟩

/-- Claim C6, amended: for percent 50 the overlay text \x2250%\x22 sits
horizontally centered (columns 13-15, offset 1 + (28 - 3) / 2) on the
vertical-center interior row (line index 6 = 2 + 9 / 2); each of the other
eight interior rows carries exactly 14 = floor(50 × 28 / 100) fill
characters, while the overlay row carries 12, two having been overwritten
by the text. -/
theorem C6_amended :
    (((render_battery_lines 50).getD 6 []).drop 13).take 3 = ['5', '0', '%']
      ∧ 13 = 1 + (28 - 3) / 2
      ∧ 6 = 2 + 9 / 2
      ∧ (∀ i ∈ ([2, 3, 4, 5, 7, 8, 9, 10] : List Nat),
          ((render_battery_lines 50).getD i []).count '█' = 14)
      ∧ ((render_battery_lines 50).getD 6 []).count '█' = 12 := by
  refine ⟨by decide, by decide, by decide, by decide, by decide⟩

/-- Claim C7, confirmed: the selected color is the warning hue exactly for
percent < 20, the caution hue exactly for 20 ≤ percent < 60, and the nominal
hue exactly for percent ≥ 60. -/
theorem C7_color_thresholds (p : Int) :
    (color_for_percent p = "red" ↔ p < 20)
      ∧ (color_for_percent p = "yellow" ↔ 20 ≤ p ∧ p < 60)
      ∧ (color_for_percent p = "green" ↔ 60 ≤ p) := by
  simp only [color_for_percent]
  split_ifs with h1 h2
  · exact ⟨iff_of_true rfl h1, iff_of_false (by decide) (by omega),
      iff_of_false (by decide) (by omega)⟩
  · exact ⟨iff_of_false (by decide) (by omega), iff_of_true rfl (by omega),
      iff_of_false (by decide) (by omega)⟩
  · exact ⟨iff_of_false (by decide) (by omega), iff_of_false (by decide) (by omega),
      iff_of_true rfl (by omega)⟩

/-- Claim C8 fails as stated: when the facility reports the documented
unlimited sentinel -2 (AC power), the code stores -2 as the remaining
seconds instead of marking them absent, since it only tests for -1 and
None. -/
theorem C8_counterexample :
    get_psutil_battery (some (some ⟨50, true, some POWER_TIME_UNLIMITED⟩))
        = some ⟨some 50, some "Charging", some (some (-2))⟩
      ∧ (some (-2) : Option Int) ≠ none := by
  refine ⟨?_, by decide⟩
  have hp : pyRound 50 = 50 := by norm_num [pyRound]
  simp [get_psutil_battery, POWER_TIME_UNLIMITED, hp]

/-- Claim C8, amended: an unavailable facility or a missing battery yields
no reading; otherwise the reading carries the reported percent rounded to a
nearest integer (ties to even), status \x22Charging\x22 exactly when plugged
in and \x22Discharging\x22 otherwise, and remaining seconds absent exactly
when the facility reports None or the unknown sentinel -1 — any other
reported value, the unlimited sentinel -2 included, is stored as is. -/
theorem C8_amended (b : PsutilReading) :
    get_psutil_battery none = none
      ∧ get_psutil_battery (some none) = none
      ∧ (∀ d, get_psutil_battery (some (some b)) = some d →
          d.percent = some (pyRound b.percent)
            ∧ (b.percent - 1 / 2 ≤ (pyRound b.percent : ℚ)
                ∧ (pyRound b.percent : ℚ) ≤ b.percent + 1 / 2)
            ∧ d.status = some (if b.power_plugged then "Charging" else "Discharging")
            ∧ ((b.secsleft = none ∨ b.secsleft = some POWER_TIME_UNKNOWN) →
                d.secs_left = some none)
            ∧ (∀ v, b.secsleft = some v → v ≠ POWER_TIME_UNKNOWN →
                d.secs_left = some (some v))) := by
  refine ⟨rfl, rfl, fun d hd => ?_⟩
  cases hd
  refine ⟨rfl, pyRound_nearest b.percent, rfl, fun h => ?_, fun v hv hne => ?_⟩
  · rcases h with h | h
    · simp [h]
    · simp [h, POWER_TIME_UNKNOWN]
  · simp only [POWER_TIME_UNKNOWN] at hne
    simp [hv, hne]

/-- Claim C8 witness: the amended statement instantiated at a discharging
reading with 5400 seconds left. -/
theorem C8_witness :
    ((get_psutil_battery (some (some ⟨80, false, some 5400⟩))).getD BatteryDict.empty).secs_left
      = some (some 5400) :=
  ((C8_amended ⟨80, false, some 5400⟩).2.2 _ rfl).2.2.2.2 5400 rfl (by decide)

/-- Claim C9, confirmed: after the merge, the renderer arguments are total
values with every still-absent field replaced by its default — percent 50,
status \x22Unknown\x22, seconds absent — and every present field passed
through, so the renderer never sees a missing field and a run without any
battery data degrades to the visible defaults. -/
theorem C9_defaults (ps sys : Option BatteryDict) (l : Option Int) (s : Option String)
    (t : Option Int) :
    ((merge_overrides (acquire_base ps sys) l s t).percent = none →
        (show_pipeline ps sys l s t).1 = 50)
      ∧ (∀ v, (merge_overrides (acquire_base ps sys) l s t).percent = some v →
          (show_pipeline ps sys l s t).1 = v)
      ∧ ((merge_overrides (acquire_base ps sys) l s t).status = none →
          (show_pipeline ps sys l s t).2.1 = "Unknown")
      ∧ (∀ v, (merge_overrides (acquire_base ps sys) l s t).status = some v →
          (show_pipeline ps sys l s t).2.1 = v)
      ∧ ((merge_overrides (acquire_base ps sys) l s t).secs_left = none →
          (show_pipeline ps sys l s t).2.2 = none)
      ∧ (∀ v, (merge_overrides (acquire_base ps sys) l s t).secs_left = some v →
          (show_pipeline ps sys l s t).2.2 = v) := by
  refine ⟨fun h => ?_, fun v h => ?_, fun h => ?_, fun v h => ?_, fun h => ?_, fun v h => ?_⟩ <;>
    simp [show_pipeline, h]

/-- Claim C9 witness: with no sources and no overrides the renderer receives
exactly the defaults, and with overrides it receives the overridden
values. -/
theorem C9_witness :
    (show_pipeline none none none none none).1 = 50
      ∧ (show_pipeline none none none none none).2.1 = "Unknown"
      ∧ (show_pipeline none none none none none).2.2 = none
      ∧ (show_pipeline none none (some 75) (some "Charging") (some 120)).1 = 75
      ∧ (show_pipeline none none (some 75) (some "Charging") (some 120)).2.1 = "Charging"
      ∧ (show_pipeline none none (some 75) (some "Charging") (some 120)).2.2 = some 120 :=
  ⟨(C9_defaults none none none none none).1 rfl,
   (C9_defaults none none none none none).2.2.1 rfl,
   (C9_defaults none none none none none).2.2.2.2.1 rfl,
   (C9_defaults none none (some 75) (some "Charging") (some 120)).2.1 75 rfl,
   (C9_defaults none none (some 75) (some "Charging") (some 120)).2.2.2.1 "Charging" rfl,
   (C9_defaults none none (some 75) (some "Charging") (some 120)).2.2.2.2.2 (some 120) rfl⟩

/-- Claim C10, confirmed: for every percent in [0, 100] the filled-column
count lies in [0, 28] and every line of the gauge block — cap, borders and
all nine interior rows, the overlaid one included — is exactly 30 characters
long. -/
theorem C10_geometry (p : Int) (h0 : 0 ≤ p) (h1 : p ≤ 100) :
    (0 ≤ fill_cols p ∧ fill_cols p ≤ 28)
      ∧ ∀ l ∈ render_battery_lines p, l.length = 30 := by
  constructor
  · obtain ⟨n, rfl | rfl⟩ := Int.eq_nat_or_neg p
    · rw [fill_cols_natCast]; omega
    · rw [fill_cols_neg_natCast]; omega
  · interval_cases p <;> decide

/-- Claim C10 witness: the geometry invariant instantiated at percent 50. -/
theorem C10_witness :
    (0 : Int) ≤ 50 ∧ (50 : Int) ≤ 100
      ∧ ((0 ≤ fill_cols 50 ∧ fill_cols 50 ≤ 28)
          ∧ ∀ l ∈ render_battery_lines 50, l.length = 30) :=
  ⟨by decide, by decide, C10_geometry 50 (by decide) (by decide)⟩

end Voltix
